import Mathlib

/-!
Shallow embedding of the ykhelper/telebot repository (src/app.py and
src/polling-app.py), covering the Telegram handler set: the Dify message
relay (`handle_message`), `/resetconversation`, `/start`, `/help`, `/hello`,
`/cat`, the inline query handler, and the webhook HTTP surface of app.py.

Per-user state (`context.user_data`) is a Python dict; the handlers only
ever read and write the key "dify_conversation_id", whose stored value is
`chat_data.get("conversation_id")` — a string or Python `None`.  We model
the dict as an association list from `String` to `Option String`
(`none` standing for Python `None`), with Python dict semantics:
lookup of the first matching key, in-place overwrite on assignment to an
existing key, append on assignment to a new key, removal on `del`.

External effects (the Dify HTTP call, the cat-image GET, the Telegram
sends) are modelled by passing in the environment's response and returning
the requests made and the reply produced.
-/

namespace Telebot

/-- Python dict with string keys and values that are a string or `None`. -/
abbrev Dict := List (String × Option String)

/-- Python `d[k]` / `d.get(k)`: value of the first entry with key `k`. -/
def dget (d : Dict) (k : String) : Option (Option String) :=
  match d with
  | [] => none
  | (k2, v) :: rest => if k2 = k then some v else dget rest k

/-- Python `k in d`. -/
def dcontains (d : Dict) (k : String) : Bool :=
  (dget d k).isSome

/-- Python `d[k] = v`: overwrite the existing entry, else append. -/
def dset (d : Dict) (k : String) (v : Option String) : Dict :=
  match d with
  | [] => [(k, v)]
  | (k2, w) :: rest => if k2 = k then (k, v) :: rest else (k2, w) :: dset rest k v

/-- Python `del d[k]`: remove the entry (or entries) with key `k`. -/
def ddel (d : Dict) (k : String) : Dict :=
  match d with
  | [] => []
  | (k2, w) :: rest => if k2 = k then ddel rest k else (k2, w) :: ddel rest k

theorem dget_dset_self (d : Dict) (k : String) (v : Option String) :
    dget (dset d k v) k = some v := by
  induction d with
  | nil => simp [dset, dget]
  | cons hd tl ih =>
    obtain ⟨k2, w⟩ := hd
    by_cases h : k2 = k
    · simp [dset, dget, h]
    · simp [dset, dget, h, ih]

theorem dget_dset_ne (d : Dict) (k k2 : String) (v : Option String)
    (h : k2 ≠ k) : dget (dset d k v) k2 = dget d k2 := by
  have hk : ¬ (k = k2) := fun hh => h hh.symm
  induction d with
  | nil => simp [dset, dget, hk]
  | cons hd tl ih =>
    obtain ⟨k3, w⟩ := hd
    by_cases h3 : k3 = k
    · subst h3
      simp [dset, dget, hk]
    · simp [dset, dget, h3, ih]

theorem dget_ddel_self (d : Dict) (k : String) :
    dget (ddel d k) k = none := by
  induction d with
  | nil => simp [ddel, dget]
  | cons hd tl ih =>
    obtain ⟨k2, w⟩ := hd
    by_cases h : k2 = k <;> simp [ddel, dget, h, ih]

theorem dget_ddel_ne (d : Dict) (k k2 : String) (h : k2 ≠ k) :
    dget (ddel d k) k2 = dget d k2 := by
  have hk : ¬ (k = k2) := fun hh => h hh.symm
  induction d with
  | nil => simp [ddel]
  | cons hd tl ih =>
    obtain ⟨k3, w⟩ := hd
    by_cases h3 : k3 = k
    · subst h3
      simp [ddel, dget, hk, ih]
    · simp [ddel, dget, h3, ih]

/-- The single per-user state key used by both files. -/
def difyKey : String := "dify_conversation_id"

/-- A `create_chat_message` request as built by `handle_message`: the outer
`Option` on `conversation_id` is presence of the keyword argument in the
call (absent in the fresh branch), the inner `Option String` is the stored
Python value (possibly `None`). -/
structure DifyRequest where
  user : String
  inputsName : String
  query : String
  conversation_id : Option (Option String)
  response_mode : String
deriving DecidableEq, Repr

/-- The fields `handle_message` reads from the parsed response dict via
`chat_data.get`: `none` when the JSON object lacks the key. -/
structure ChatData where
  conversation_id : Option String
  answer : Option String
deriving DecidableEq, Repr

/-- Outcome of one Dify exchange, as observed inside the `try` block:
either one of the raising steps raises (the call itself, the
`raise_for_status`, the `.json()` parse, or `.get` on a non-dict JSON
value), or a parsed response dict is obtained. -/
inductive DifyResult where
  | raiseInCall
  | raiseForStatus
  | raiseInJson
  | raiseNonDictJson
  | parsed (d : ChatData)
deriving DecidableEq, Repr

def apologyText : String := "I encountered an error while processing your message."

def noResponseText : String := "No response from AI"

def resetText : String := "Your conversation has been reset. Let\x27s start fresh!"

def noActiveText : String := "No active conversation to reset."

def catApiUrl : String := "https://api.thecatapi.com/v1/images/search"

def catApologyText : String := "Sorry, I couldn\x27t fetch a cat picture right now."

def helpText : String :=
  "Available commands:\n" ++
  "/start - Start the bot\n" ++
  "/help - Display available commands\n" ++
  "/cat - Get a random cat picture\n" ++
  "/hello - Get a personal greeting\n" ++
  "/resetconversation - Reset your AI conversation\n\n" ++
  "You can also chat with me directly and I\x27ll respond using AI!"

/-- What a run of `handle_message` produces: the user state afterwards, the
text passed to the final `reply_text`, and the Dify requests issued. -/
structure HandleResult where
  state : Dict
  reply : String
  requests : List DifyRequest
deriving DecidableEq, Repr

/-- Body of the cat-image HTTP response once a status was received:
a non-JSON body, or a JSON array whose elements are recorded by the value
of their "url" key (`none` when the key is missing). -/
inductive CatBody where
  | notJson
  | arr (items : List (Option String))
deriving DecidableEq, Repr

/-- Outcome of the cat-image GET: a raised `httpx.RequestError`, or a
response with a status code and a body. -/
inductive CatHttp where
  | requestError
  | response (status : Nat) (body : CatBody)
deriving DecidableEq, Repr

/-- Observable outcome of the `/cat` handler: a `reply_photo` with a URL, the
fixed apology `reply_text`, or an exception escaping the handler uncaught. -/
inductive CatResult where
  | photo (url : String)
  | apology
  | uncaught (exc : String)
deriving DecidableEq, Repr

/-- `httpx` `raise_for_status` raises unless the status is a 2xx success. -/
def isSuccessStatus (status : Nat) : Bool :=
  200 ≤ status && status ≤ 299

/-- One inline query result article, keeping the fields the handler fills
with non-random data (`id` is a fresh `uuid4`, not modelled). -/
structure InlineArticle where
  title : String
  content : String
deriving DecidableEq, Repr

/-- An HTTP response of the Starlette webhook surface. -/
structure HttpResponse where
  status : Nat
  body : String
deriving DecidableEq, Repr

namespace App

/-- Embedding of `handle_message` from src/app.py (the body of the `try`
block and the final reply; the typing-indicator send, which precedes the
`try`, is in `handle_message_full`).  `backend` gives the outcome of
`dify_client.create_chat_message` on the request built by the handler. -/
def handle_message (backend : DifyRequest → DifyResult)
    (user_id user_name message_text : String) (st : Dict) : HandleResult :=
  let inputs := user_name
  if dcontains st difyKey = false then
    let req : DifyRequest := ⟨user_id, inputs, message_text, none, "blocking"⟩
    match backend req with
    | DifyResult.parsed d =>
        ⟨dset st difyKey d.conversation_id, (d.answer).getD noResponseText, [req]⟩
    | _ => ⟨st, apologyText, [req]⟩
  else
    let conversation_id := (dget st difyKey).getD none
    let req : DifyRequest := ⟨user_id, inputs, message_text, some conversation_id, "blocking"⟩
    match backend req with
    | DifyResult.parsed d => ⟨st, (d.answer).getD noResponseText, [req]⟩
    | _ => ⟨st, apologyText, [req]⟩

/-- `handle_message` including the `send_action(action="typing")` await that
precedes the `try` block.  `typingFails` says whether that send raises; when
it does, the exception propagates out of the handler and nothing below runs,
so no reply is produced (`none`). -/
def handle_message_full (typingFails : Bool) (backend : DifyRequest → DifyResult)
    (user_id user_name message_text : String) (st : Dict) : Option HandleResult :=
  if typingFails then none
  else some (handle_message backend user_id user_name message_text st)

/-- Embedding of `reset_conversation` from src/app.py: returns the state
after the handler and the text of the single `reply_text`. -/
def reset_conversation (st : Dict) : Dict × String :=
  if dcontains st difyKey then (ddel st difyKey, resetText)
  else (st, noActiveText)

/-- Embedding of `start` from src/app.py: state is untouched, reply is the
greeting built from the user first name. -/
def start (first_name : String) (st : Dict) : Dict × String :=
  (st, "Hello " ++ first_name ++ "! I\x27m your Telegram Bot. Type /help for available commands.")

/-- Embedding of `help_command` from src/app.py. -/
def help_command (st : Dict) : Dict × String :=
  (st, helpText)

/-- Embedding of `hello` from src/app.py. -/
def hello (first_name : String) (st : Dict) : Dict × String :=
  (st, "Hello " ++ first_name)

/-- Embedding of `cat` from src/app.py: returns the state after the handler,
the list of GET URLs requested, and the observable outcome.  The `except`
clause catches only `httpx.RequestError` and `KeyError`; `raise_for_status`
on a non-2xx status raises `httpx.HTTPStatusError`, `.json()` on a non-JSON
body raises `JSONDecodeError`, and `data[0]` on an empty array raises
`IndexError`, none of which is caught. -/
def cat (resp : CatHttp) (st : Dict) : Dict × List String × CatResult :=
  (st, [catApiUrl],
    match resp with
    | CatHttp.requestError => CatResult.apology
    | CatHttp.response status body =>
      if isSuccessStatus status = false then CatResult.uncaught "HTTPStatusError"
      else
        match body with
        | CatBody.notJson => CatResult.uncaught "JSONDecodeError"
        | CatBody.arr [] => CatResult.uncaught "IndexError"
        | CatBody.arr (none :: _) => CatResult.apology
        | CatBody.arr (some u :: _) => CatResult.photo u)

/-- Embedding of `inline_query` from src/app.py: the answered result list.
Python `query or "Empty query"` substitutes the literal for the falsy empty
string. -/
def inline_query (q : String) (st : Dict) : Dict × List InlineArticle :=
  (st, [⟨"Echo", if q = "" then "Empty query" else q⟩])

/-- Embedding of the `telegram_webhook` Starlette route of src/app.py:
`parsed` is `some u` when `request.json()` and `Update.de_json` succeed and
`u` is put on the update queue, `none` when any step raises (the exception
is logged and swallowed).  Either way the route returns `Response()`:
status 200 with an empty body.  Handler dispatch happens later, off the
queue, so no dispatch error can reach this response. -/
def telegram_webhook (parsed : Option String) : Option String × HttpResponse :=
  (parsed, ⟨200, ""⟩)

/-- Embedding of the `health_check` Starlette route of src/app.py. -/
def health_check : HttpResponse :=
  ⟨200, "Bot is running"⟩

end App

namespace PollingApp

/-- Embedding of `handle_message` from src/polling-app.py (identical text to
the webhook variant). -/
def handle_message (backend : DifyRequest → DifyResult)
    (user_id user_name message_text : String) (st : Dict) : HandleResult :=
  let inputs := user_name
  if dcontains st difyKey = false then
    let req : DifyRequest := ⟨user_id, inputs, message_text, none, "blocking"⟩
    match backend req with
    | DifyResult.parsed d =>
        ⟨dset st difyKey d.conversation_id, (d.answer).getD noResponseText, [req]⟩
    | _ => ⟨st, apologyText, [req]⟩
  else
    let conversation_id := (dget st difyKey).getD none
    let req : DifyRequest := ⟨user_id, inputs, message_text, some conversation_id, "blocking"⟩
    match backend req with
    | DifyResult.parsed d => ⟨st, (d.answer).getD noResponseText, [req]⟩
    | _ => ⟨st, apologyText, [req]⟩

/-- `handle_message` of src/polling-app.py including the typing-indicator
send that precedes the `try` block. -/
def handle_message_full (typingFails : Bool) (backend : DifyRequest → DifyResult)
    (user_id user_name message_text : String) (st : Dict) : Option HandleResult :=
  if typingFails then none
  else some (handle_message backend user_id user_name message_text st)

/-- Embedding of `reset_conversation` from src/polling-app.py. -/
def reset_conversation (st : Dict) : Dict × String :=
  if dcontains st difyKey then (ddel st difyKey, resetText)
  else (st, noActiveText)

/-- Embedding of `start` from src/polling-app.py. -/
def start (first_name : String) (st : Dict) : Dict × String :=
  (st, "Hello " ++ first_name ++ "! I\x27m your Telegram Bot. Type /help for available commands.")

/-- Embedding of `help_command` from src/polling-app.py. -/
def help_command (st : Dict) : Dict × String :=
  (st, helpText)

/-- Embedding of `hello` from src/polling-app.py. -/
def hello (first_name : String) (st : Dict) : Dict × String :=
  (st, "Hello " ++ first_name)

/-- Embedding of `cat` from src/polling-app.py (identical text to the
webhook variant). -/
def cat (resp : CatHttp) (st : Dict) : Dict × List String × CatResult :=
  (st, [catApiUrl],
    match resp with
    | CatHttp.requestError => CatResult.apology
    | CatHttp.response status body =>
      if isSuccessStatus status = false then CatResult.uncaught "HTTPStatusError"
      else
        match body with
        | CatBody.notJson => CatResult.uncaught "JSONDecodeError"
        | CatBody.arr [] => CatResult.uncaught "IndexError"
        | CatBody.arr (none :: _) => CatResult.apology
        | CatBody.arr (some u :: _) => CatResult.photo u)

/-- Embedding of `inline_query` from src/polling-app.py. -/
def inline_query (q : String) (st : Dict) : Dict × List InlineArticle :=
  (st, [⟨"Echo", if q = "" then "Empty query" else q⟩])

end PollingApp

theorem dcontains_ddel_self (d : Dict) (k : String) :
    dcontains (ddel d k) k = false := by
  simp [dcontains, dget_ddel_self]

theorem dget_eq_none_of_not_dcontains (d : Dict) (k : String)
    (h : dcontains d k = false) : dget d k = none := by
  cases ho : dget d k with
  | none => rfl
  | some v => simp [dcontains, ho] at h

theorem some_getD_of_dcontains (d : Dict) (k : String)
    (h : dcontains d k = true) : some ((dget d k).getD none) = dget d k := by
  cases ho : dget d k with
  | none => simp [dcontains, ho] at h
  | some v => rfl

/-- Concrete backend fixture: every exchange succeeds and returns
conversation_id "new" with answer "hi". -/
def bkNew : DifyRequest → DifyResult :=
  fun _ => DifyResult.parsed ⟨some "new", some "hi"⟩

/-- Concrete backend fixture: every exchange raises a transport error. -/
def bkFail : DifyRequest → DifyResult :=
  fun _ => DifyResult.raiseInCall

/-- Concrete state fixture: a user with stored conversation_id "old". -/
def stOld : Dict := [(difyKey, some "old")]

/-- C1: the claim says a successful exchange in the Continuing state
overwrites the stored conversation_id with the value returned by that
exchange.  Counterexample: starting from stored id "old", a successful
exchange whose response carries conversation_id "new" leaves the stored id
at "old" — the continuing branch of `handle_message` never writes the key. -/
theorem C1_counterexample :
    dget (App.handle_message bkNew "42" "Alice" "How are you?" stOld).state difyKey
        = some (some "old") ∧
    ¬ dget (App.handle_message bkNew "42" "Alice" "How are you?" stOld).state difyKey
        = some (some "new") := by
  decide

/-- C1 (amended): for every user in the Continuing state, a successful
free-text exchange leaves the stored conversation_id unchanged — the value
stored by the first exchange is kept fixed, whatever the backend returns
later (in fact the whole user state is unchanged). -/
theorem C1_continuing_exchange_keeps_state (backend : DifyRequest → DifyResult)
    (uid un mt : String) (st : Dict) (h : dcontains st difyKey = true)
    (d : ChatData)
    (hb : backend ⟨uid, un, mt, some ((dget st difyKey).getD none), "blocking"⟩
        = DifyResult.parsed d) :
    (App.handle_message backend uid un mt st).state = st ∧
    dget (App.handle_message backend uid un mt st).state difyKey = dget st difyKey := by
  unfold App.handle_message
  simp only [h, hb]
  exact ⟨rfl, rfl⟩

/-- C1 witness: the amended theorem applied to the concrete Continuing
state stOld and the concrete successful backend bkNew. -/
theorem C1_witness :
    dcontains stOld difyKey = true ∧
    bkNew ⟨"42", "Alice", "hi", some ((dget stOld difyKey).getD none), "blocking"⟩
        = DifyResult.parsed ⟨some "new", some "hi"⟩ ∧
    (App.handle_message bkNew "42" "Alice" "hi" stOld).state = stOld :=
  ⟨by decide, rfl,
    (C1_continuing_exchange_keeps_state bkNew "42" "Alice" "hi" stOld (by decide)
      ⟨some "new", some "hi"⟩ rfl).1⟩

/-- C2: every free-text message issues exactly one Dify exchange, and the
request's conversation_id field mirrors the session state at the start of
handling: the field is absent when no session is stored, and carries the
stored value C when one is. -/
theorem C2_request_mirrors_state (backend : DifyRequest → DifyResult)
    (uid un mt : String) (st : Dict) :
    (App.handle_message backend uid un mt st).requests =
      [⟨uid, un, mt, dget st difyKey, "blocking"⟩] := by
  unfold App.handle_message
  split
  next hf =>
    dsimp only
    rw [dget_eq_none_of_not_dcontains st difyKey hf]
    split <;> rfl
  next hf =>
    have h : dcontains st difyKey = true := by
      revert hf
      cases dcontains st difyKey <;> simp
    dsimp only
    rw [some_getD_of_dcontains st difyKey h]
    split <;> rfl

/-- C3: when the one exchange issued for a free-text message fails (any
outcome other than a parsed response: transport error, non-success status,
malformed JSON), the stored session is exactly what it was before and the
reply is the fixed apology text. -/
theorem C3_failure_keeps_state_and_apologises (backend : DifyRequest → DifyResult)
    (uid un mt : String) (st : Dict)
    (hfail : ∀ d, backend ⟨uid, un, mt, dget st difyKey, "blocking"⟩
        ≠ DifyResult.parsed d) :
    (App.handle_message backend uid un mt st).state = st ∧
    (App.handle_message backend uid un mt st).reply = apologyText := by
  unfold App.handle_message
  split
  next hf =>
    dsimp only
    rw [dget_eq_none_of_not_dcontains st difyKey hf] at hfail
    cases hb : backend ⟨uid, un, mt, none, "blocking"⟩ with
    | parsed d => exact absurd hb (hfail d)
    | raiseInCall => exact ⟨rfl, rfl⟩
    | raiseForStatus => exact ⟨rfl, rfl⟩
    | raiseInJson => exact ⟨rfl, rfl⟩
    | raiseNonDictJson => exact ⟨rfl, rfl⟩
  next hf =>
    have h : dcontains st difyKey = true := by
      revert hf
      cases dcontains st difyKey <;> simp
    dsimp only
    rw [some_getD_of_dcontains st difyKey h]
    cases hb : backend ⟨uid, un, mt, dget st difyKey, "blocking"⟩ with
    | parsed d => exact absurd hb (hfail d)
    | raiseInCall => exact ⟨rfl, rfl⟩
    | raiseForStatus => exact ⟨rfl, rfl⟩
    | raiseInJson => exact ⟨rfl, rfl⟩
    | raiseNonDictJson => exact ⟨rfl, rfl⟩

/-- C3 witness: the theorem applied to the concrete failing backend bkFail
and the Continuing state stOld. -/
theorem C3_witness :
    (App.handle_message bkFail "42" "Alice" "hi" stOld).state = stOld ∧
    (App.handle_message bkFail "42" "Alice" "hi" stOld).reply = apologyText :=
  C3_failure_keeps_state_and_apologises bkFail "42" "Alice" "hi" stOld
    (fun _ h => DifyResult.noConfusion h)

/-- C4: the reset command unconditionally leaves the user with no stored
conversation_id; with a stored session it replies with the reset text, with
none it leaves the state unchanged and replies with the no-active text, and
a second reset right after a first one changes nothing (idempotence on
session state). -/
theorem C4_reset_unconditionally_fresh (st : Dict) :
    dcontains (App.reset_conversation st).1 difyKey = false ∧
    (dcontains st difyKey = true → (App.reset_conversation st).2 = resetText) ∧
    (dcontains st difyKey = false →
        (App.reset_conversation st).1 = st ∧
        (App.reset_conversation st).2 = noActiveText) ∧
    App.reset_conversation (App.reset_conversation st).1 =
      ((App.reset_conversation st).1, noActiveText) := by
  by_cases h : dcontains st difyKey
  · refine ⟨?_, fun _ => ?_, fun hc => absurd h (by simp [hc]), ?_⟩
    · simp [App.reset_conversation, h, dcontains_ddel_self]
    · simp [App.reset_conversation, h]
    · simp [App.reset_conversation, h, dcontains_ddel_self]
  · have h2 : dcontains st difyKey = false := by
      simpa using h
    refine ⟨?_, fun hc => absurd hc (by simp [h2]), fun _ => ⟨?_, ?_⟩, ?_⟩ <;>
      simp [App.reset_conversation, h2]

/-- C4 witness: the theorem applied to the concrete Continuing state stOld,
discharging the stored-session hypothesis of the reset-text conjunct. -/
theorem C4_witness :
    dcontains stOld difyKey = true ∧ (App.reset_conversation stOld).2 = resetText :=
  ⟨by decide, (C4_reset_unconditionally_fresh stOld).2.1 (by decide)⟩

/-- C5: every inline query is answered with exactly one result article,
its title is "Echo", and its message body is the query text when non-empty
and the literal string "Empty query" when the query is empty. -/
theorem C5_inline_query_echo (q : String) (st : Dict) :
    ((App.inline_query q st).2).length = 1 ∧
    ((App.inline_query q st).2).map InlineArticle.title = ["Echo"] ∧
    (q ≠ "" → ((App.inline_query q st).2).map InlineArticle.content = [q]) ∧
    (q = "" → ((App.inline_query q st).2).map InlineArticle.content = ["Empty query"]) := by
  refine ⟨rfl, rfl, fun h => ?_, fun h => ?_⟩ <;>
    simp [App.inline_query, h]

/-- C5 witness: the theorem applied to the concrete non-empty query "abc"
and the concrete empty query would be a second application; the non-empty
case is discharged here. -/
theorem C5_witness :
    "abc" ≠ "" ∧ ((App.inline_query "abc" []).2).map InlineArticle.content = ["abc"] :=
  ⟨by decide, (C5_inline_query_echo "abc" []).2.2.1 (by decide)⟩

/-- C6: the claim says any request error or malformed/empty response body
(including an empty array, a non-JSON body, and — per the spec scenario —
a 500 status) yields the apology with no uncaught exception.
Counterexample: on a 500 status, `raise_for_status` raises
`httpx.HTTPStatusError`, which the `except (httpx.RequestError, KeyError)`
clause does not catch, so the exception escapes and no apology is sent. -/
theorem C6_counterexample :
    (App.cat (CatHttp.response 500 (CatBody.arr [some "http://x/cat.png"])) []).2.2
        = CatResult.uncaught "HTTPStatusError" ∧
    ¬ (App.cat (CatHttp.response 500 (CatBody.arr [some "http://x/cat.png"])) []).2.2
        = CatResult.apology := by
  decide

/-- C6 (amended): the /cat handler makes exactly one GET to the cat-image
endpoint; on success it sends the url of the first array element as a photo
reply; on an httpx transport error, or a KeyError from a first element
lacking a "url" key, it sends the fixed apology; but a non-success HTTP
status, a non-JSON body, or an empty array raises an exception
(HTTPStatusError, JSONDecodeError, IndexError) that escapes the handler
uncaught, because the except clause catches only httpx.RequestError and
KeyError. -/
theorem C6_cat_single_get_and_outcomes (resp : CatHttp) (st : Dict) :
    (App.cat resp st).2.1 = [catApiUrl] ∧
    (resp = CatHttp.requestError → (App.cat resp st).2.2 = CatResult.apology) ∧
    (∀ status body, resp = CatHttp.response status body →
        isSuccessStatus status = false →
        (App.cat resp st).2.2 = CatResult.uncaught "HTTPStatusError") ∧
    (∀ status, resp = CatHttp.response status CatBody.notJson →
        isSuccessStatus status = true →
        (App.cat resp st).2.2 = CatResult.uncaught "JSONDecodeError") ∧
    (∀ status, resp = CatHttp.response status (CatBody.arr []) →
        isSuccessStatus status = true →
        (App.cat resp st).2.2 = CatResult.uncaught "IndexError") ∧
    (∀ status rest, resp = CatHttp.response status (CatBody.arr (none :: rest)) →
        isSuccessStatus status = true →
        (App.cat resp st).2.2 = CatResult.apology) ∧
    (∀ status u rest, resp = CatHttp.response status (CatBody.arr (some u :: rest)) →
        isSuccessStatus status = true →
        (App.cat resp st).2.2 = CatResult.photo u) := by
  refine ⟨rfl, ?_, ?_, ?_, ?_, ?_, ?_⟩
  · intro h
    subst h
    rfl
  · intro status body h hs
    subst h
    simp [App.cat, hs]
  · intro status h hs
    subst h
    simp [App.cat, hs]
  · intro status h hs
    subst h
    simp [App.cat, hs]
  · intro status rest h hs
    subst h
    simp [App.cat, hs]
  · intro status u rest h hs
    subst h
    simp [App.cat, hs]

/-- C6 witness: the amended theorem applied to the concrete transport-error
outcome, discharging its hypothesis. -/
theorem C6_witness :
    (App.cat CatHttp.requestError []).2.2 = CatResult.apology :=
  (C6_cat_single_get_and_outcomes CatHttp.requestError []).2.1 rfl

/-- C7: the claim says the typing-indicator send is best-effort and its
failure does not prevent the reply.  Counterexample: the send precedes the
try block, so when it raises, the handler aborts and no reply at all is
produced for a concrete message in a concrete state. -/
theorem C7_counterexample :
    App.handle_message_full true bkNew "42" "Alice" "hi" stOld = none ∧
    ¬ (App.handle_message_full true bkNew "42" "Alice" "hi" stOld).isSome = true := by
  decide

/-- C7 (amended): the typing-indicator send is awaited before the try
block, so it is required to succeed: a reply (answer or apology) is
produced exactly when the typing send does not fail, and when it succeeds
the rest of the handler runs unchanged. -/
theorem C7_typing_failure_blocks_reply (tf : Bool) (backend : DifyRequest → DifyResult)
    (uid un mt : String) (st : Dict) :
    ((App.handle_message_full tf backend uid un mt st).isSome = !tf) ∧
    (tf = false → App.handle_message_full tf backend uid un mt st
        = some (App.handle_message backend uid un mt st)) := by
  cases tf <;> simp [App.handle_message_full]

/-- C7 witness: the amended theorem applied with a succeeding typing send,
discharging the hypothesis of its second conjunct. -/
theorem C7_witness :
    App.handle_message_full false bkNew "42" "Alice" "hi" stOld
      = some (App.handle_message bkNew "42" "Alice" "hi" stOld) :=
  (C7_typing_failure_blocks_reply false bkNew "42" "Alice" "hi" stOld).2 rfl

/-- C8: every POST to the webhook path is answered with an empty body and
status 200, whether or not the body parsed as a platform update (dispatch
happens later, off the queue, and cannot affect this response), and GET
/health is answered with "Bot is running" and status 200. -/
theorem C8_webhook_always_success (parsed : Option String) :
    (App.telegram_webhook parsed).2 = ⟨200, ""⟩ ∧
    App.health_check = ⟨200, "Bot is running"⟩ :=
  ⟨rfl, rfl⟩

/-- C9: the webhook-mode file and the polling-mode file install the same
handler set: each embedded handler of src/app.py is equal, as a function of
the inbound event and starting session state, to its src/polling-app.py
counterpart, so both modes produce identical replies and identical
resulting session state on every event. -/
theorem C9_webhook_polling_equivalent :
    App.handle_message = PollingApp.handle_message ∧
    App.handle_message_full = PollingApp.handle_message_full ∧
    App.reset_conversation = PollingApp.reset_conversation ∧
    App.start = PollingApp.start ∧
    App.help_command = PollingApp.help_command ∧
    App.hello = PollingApp.hello ∧
    App.cat = PollingApp.cat ∧
    App.inline_query = PollingApp.inline_query :=
  ⟨rfl, rfl, rfl, rfl, rfl, rfl, rfl, rfl⟩

/-- C10: every handler mutates at most the "dify_conversation_id" key of
the per-user state: for any event, every other key reads the same after
handling as before, and the /start, /help, /hello, /cat and inline-query
handlers leave the state entirely unchanged. -/
theorem C10_frame (backend : DifyRequest → DifyResult)
    (uid un mt fn q : String) (resp : CatHttp)
    (st : Dict) (k : String) (hk : k ≠ difyKey) :
    dget (App.handle_message backend uid un mt st).state k = dget st k ∧
    dget (App.reset_conversation st).1 k = dget st k ∧
    (App.start fn st).1 = st ∧
    (App.help_command st).1 = st ∧
    (App.hello fn st).1 = st ∧
    (App.cat resp st).1 = st ∧
    (App.inline_query q st).1 = st := by
  refine ⟨?_, ?_, rfl, rfl, rfl, rfl, rfl⟩
  · unfold App.handle_message
    split
    next hf =>
      dsimp only
      cases hb : backend ⟨uid, un, mt, none, "blocking"⟩ with
      | parsed d => exact dget_dset_ne st difyKey k d.conversation_id hk
      | raiseInCall => rfl
      | raiseForStatus => rfl
      | raiseInJson => rfl
      | raiseNonDictJson => rfl
    next hf =>
      dsimp only
      split <;> rfl
  · unfold App.reset_conversation
    split
    · exact dget_ddel_ne st difyKey k hk
    · rfl

/-- C10 witness: the theorem applied at the concrete key "language_code"
(distinct from "dify_conversation_id") in the concrete state stOld. -/
theorem C10_witness :
    "language_code" ≠ difyKey ∧
    dget (App.reset_conversation stOld).1 "language_code" = dget stOld "language_code" :=
  ⟨by decide,
    (C10_frame bkNew "42" "Alice" "hi" "Bob" "q" CatHttp.requestError stOld
      "language_code" (by decide)).2.1⟩

end Telebot
